import Mathlib

/-!
Verification of the ntfy-bot subscription bridge.

This file shallowly embeds the Go sources of the repository (the latest
revision of bot/bot.go, client/client.go, client/client_options.go and
util/util.go) as executable Lean definitions, and proves or refutes the
frozen claims about them.

Modelling conventions:
* Go maps are modelled as association lists (`List (key × value)`); `aset`
  replaces the first entry with a matching key or appends a fresh one,
  which preserves the observable lookup semantics of a Go map.
* Goroutines and channels are modelled by making effects explicit: the
  per-topic connector loop consumes an oracle list of connection outcomes
  and produces a trace of steps; the fan-out router returns the list of
  (channel, text) sends it performs.
* Machine integers only appear as HTTP status codes, which are small; they
  are modelled as `Nat`.
-/

set_option linter.unusedVariables false
set_option linter.dupNamespace false

namespace NtfyBot

/-! ### util/util.go -/

/-- Embeds util.RemoveString: removes the first occurrence of `r` from `s`
(Go: `append(s[:i], s[i+1:]...)` at the first index where `v == r`),
returning `s` unchanged when `r` does not occur. -/
def RemoveString : List String → String → List String
  | [], _ => []
  | v :: rest, r => if v = r then rest else v :: RemoveString rest r

/-- Drops the literal pfx from the front of s when present, else returns s
(Go: strings.TrimPrefix). -/
def trimPfx (s pfx : String) : String :=
  if pfx.data.isPrefixOf s.data then String.mk (s.data.drop pfx.data.length) else s

/-- Embeds util.ShortURL: strips a leading http:// then https:// scheme. -/
def ShortURL (s : String) : String :=
  trimPfx (trimPfx s "http://") "https://"

/-! ### Association-list model of Go maps -/

/-- Lookup in an association list (Go map read `m[k]` with ok-flag). -/
def alookup {α : Type} : List (String × α) → String → Option α
  | [], _ => none
  | (k, v) :: rest, key => if k = key then some v else alookup rest key

/-- Write to an association list (Go map write `m[k] = v`): replaces the
first entry with a matching key, or appends a new entry. -/
def aset {α : Type} : List (String × α) → String → α → List (String × α)
  | [], key, value => [(key, value)]
  | (k, v) :: rest, key, value =>
    if k = key then (key, value) :: rest else (k, v) :: aset rest key value

/-- Delete from an association list (Go `delete(m, k)`). -/
def aerase {α : Type} : List (String × α) → String → List (String × α)
  | [], _ => []
  | (k, v) :: rest, key => if k = key then rest else (k, v) :: aerase rest key

/-- Number of occurrences of `r` in a string list. -/
def countOcc : List String → String → Nat
  | [], _ => 0
  | v :: rest, r => (if v = r then 1 else 0) + countOcc rest r

/-- Boolean membership test on a string list. -/
def containsStr : List String → String → Bool
  | [], _ => false
  | v :: rest, r => if v = r then true else containsStr rest r

/-! ### client: messages and the streaming connection (client/client.go) -/

/-- Embeds client.Message: one decoded record of the ndjson stream. -/
structure Message where
  Event : String
  Topic : String
  Message : String
  Title : String
  Priority : Int
  Tags : List String
  deriving DecidableEq

/-- One line of a topic stream as seen by the scanner: either it decodes to
a Message or json.Decode fails on it. -/
inductive StreamLine where
  | ok (m : Message)
  | bad
  deriving DecidableEq

/-- The outcome of one connection attempt: the HTTP request itself fails, or
a stream of lines is read until the server ends it. -/
inductive ConnEvent where
  | connectFail
  | stream (lines : List StreamLine)
  deriving DecidableEq

/-- The scanner loop inside client.handleConnection: decodes line after
line, pushing every successfully decoded Message to the channel, and
returns a decode error at the first malformed line. Returns the pushed
messages and the error result of the Go function. -/
def scanLines : List StreamLine → List Message × Option String
  | [] => ([], none)
  | StreamLine.ok m :: rest =>
    let res := scanLines rest
    (m :: res.1, res.2)
  | StreamLine.bad :: _ => ([], some "json decode error")

/-- Embeds client.handleConnection: a failed request returns an error and
pushes nothing; otherwise the line scanner runs. Note that there is no
event-kind filter here: every decoded record is pushed. -/
def handleConnection : ConnEvent → List Message × Option String
  | ConnEvent.connectFail => ([], some "connection error")
  | ConnEvent.stream lines => scanLines lines

/-- One iteration of the connector loop as observed from outside: the
outcome of the connection attempt, and whether the cancellation context
fired during the 5-second select that follows it. -/
structure LoopRound where
  ev : ConnEvent
  cancelled : Bool
  deriving DecidableEq

/-- Observable steps of the connector loop. -/
inductive LoopStep where
  | attempt (pushed : List Message) (err : Option String)
  | wait (secs : Nat)
  | exited
  deriving DecidableEq

/-- Embeds client.handleConnectionLoop: forever, run handleConnection, then
select between ctx.Done (return) and time.After(5s) (retry). The oracle
list supplies one LoopRound per iteration; the result is the trace of
steps the loop performs. -/
def handleConnectionLoop : List LoopRound → List LoopStep
  | [] => []
  | r :: rest =>
    let res := handleConnection r.ev
    LoopStep.attempt res.1 res.2 ::
      (if r.cancelled then [LoopStep.exited]
       else LoopStep.wait 5 :: handleConnectionLoop rest)

/-! ### Combined bot + client subscription state -/

/-- The shared mutable state of the bridge:
* botSubs embeds Bot.subscriptions (topic URL to channel IDs),
* clientSubs embeds Client.subscriptions, with the Bool recording whether
  the subscription context has been cancelled (Client.Unsubscribe cancels
  but never deletes the entry),
* started is ghost instrumentation counting how many connector goroutines
  have ever been launched by Client.Subscribe. -/
structure SysState where
  botSubs : List (String × List String)
  clientSubs : List (String × Bool)
  started : Nat
  deriving DecidableEq

/-- Embeds Client.Subscribe: returns early when the topic already has an
entry (cancelled or not); otherwise records the subscription and launches
the connector goroutine. The Bool result is true when a new connector was
started. -/
def clientSubscribe (subs : List (String × Bool)) (topicURL : String) :
    List (String × Bool) × Bool :=
  match alookup subs topicURL with
  | some _ => (subs, false)
  | none => (aset subs topicURL false, true)

/-- Embeds Client.Unsubscribe: cancels the context of an existing
subscription. The entry itself stays in the map. -/
def clientUnsubscribe (subs : List (String × Bool)) (topicURL : String) :
    List (String × Bool) :=
  match alookup subs topicURL with
  | none => subs
  | some _ => aset subs topicURL true

/-- A connector for the topic is live when the client holds an entry whose
context has not been cancelled. -/
def connectorLive (st : SysState) (topicURL : String) : Bool :=
  match alookup st.clientSubs topicURL with
  | some false => true
  | _ => false

/-- The channel set the bot holds for a topic (empty when unsubscribed). -/
def channelsFor (st : SysState) (topicURL : String) : List String :=
  (alookup st.botSubs topicURL).getD []

/-! ### client publish (client/client.go Publish, client_options.go) -/

/-- The outgoing HTTP request being built by Publish. -/
structure Request where
  url : String
  body : String
  headers : List (String × String)
  deriving DecidableEq

/-- Embeds client.MessageOption: a request transformer that may fail. -/
def MessageOption : Type := Request → Except String Request

/-- Embeds client.WithTitle: sets X-Title only when the title is nonempty. -/
def WithTitle (title : String) : MessageOption :=
  fun r => Except.ok (if title = "" then r else { r with headers := aset r.headers "X-Title" title })

/-- Embeds client.WithPriority: sets X-Priority only when nonempty. -/
def WithPriority (priority : String) : MessageOption :=
  fun r => Except.ok (if priority = "" then r else { r with headers := aset r.headers "X-Priority" priority })

/-- Embeds client.WithTags: sets X-Tags only when nonempty. -/
def WithTags (tags : String) : MessageOption :=
  fun r => Except.ok (if tags = "" then r else { r with headers := aset r.headers "X-Tags" tags })

/-- Applies the options in order, stopping at the first failing one. -/
def applyOptions : List MessageOption → Request → Except String Request
  | [], r => Except.ok r
  | o :: rest, r =>
    match o r with
    | Except.error e => Except.error e
    | Except.ok r2 => applyOptions rest r2

/-- The HTTP response a publish request received. -/
structure PublishResponse where
  statusCode : Nat
  deriving DecidableEq

/-- Embeds client.Publish for a call that receives an HTTP response: builds
the POST request, applies the options, and treats a status code above 299
as a failure whose message carries the code. -/
def Publish (topicURL message : String) (options : List MessageOption)
    (resp : PublishResponse) : Except String Unit :=
  match applyOptions options { url := topicURL, body := message, headers := [] } with
  | Except.error e => Except.error e
  | Except.ok _ =>
    if resp.statusCode > 299 then
      Except.error ("unexpected response " ++ toString resp.statusCode ++ " from server")
    else Except.ok ()

/-! ### bot: chat message tokenization (bot/bot.go handleChatMessageEvent) -/

/-- Whitespace in the sense of Go strings.Fields (ASCII part of
unicode.IsSpace, which covers every input the bot sees here). -/
def goIsSpace (c : Char) : Bool :=
  c == ' ' || c == '\t' || c == '\n' || c == '\r' || c == '\x0b' || c == '\x0c'

/-- Splits a character list at whitespace runs, accumulating the current
field in reverse. -/
def fieldsAux : List Char → List Char → List String
  | [], acc => if acc.isEmpty then [] else [String.mk acc.reverse]
  | c :: rest, acc =>
    if goIsSpace c then
      if acc.isEmpty then fieldsAux rest [] else String.mk acc.reverse :: fieldsAux rest []
    else fieldsAux rest (c :: acc)

/-- Embeds Go strings.Fields: the whitespace-separated fields of s. -/
def fields (s : String) : List String :=
  fieldsAux s.data []

/-- Embeds the gating and tokenization part of bot.handleChatMessageEvent:
a message is handled only when its first field equals the mention token of
the bot, and the argument vector handed to runCLI is strings.Fields of the
raw text (the source carries a FIXME about quote handling here). Returns
the argv delivered to the dispatcher, or none when the message is not
addressed to the bot. -/
def handleChatMessageEvent (mention : String) (msg : String) : Option (List String) :=
  match fields msg with
  | [] => none
  | first :: _ => if first = mention then some (fields msg) else none

/-! ### CLI argument parsing (urfave/cli v2 over Go flag semantics) -/

/-- True when the token is treated as a flag by the Go flag package: it
starts with a dash and has at least one further character. -/
def isFlagToken (s : String) : Bool :=
  match s.data with
  | '-' :: _ :: _ => true
  | _ => false

/-- Strips one or two leading dashes from a flag token. -/
def stripDashes (s : String) : String :=
  match s.data with
  | '-' :: '-' :: rest => String.mk rest
  | '-' :: rest => String.mk rest
  | _ => s

/-- Splits a flag body at the first equals sign, when there is one. -/
def splitEqAux : List Char → List Char → Option (String × String)
  | [], _ => none
  | c :: rest, acc =>
    if c = '=' then some (String.mk acc.reverse, String.mk rest) else splitEqAux rest (c :: acc)

/-- name=value split of a flag body at the first equals sign. -/
def splitEq (s : String) : Option (String × String) :=
  splitEqAux s.data []

/-- Go flag parsing as used by urfave/cli for a command: scans flags from
the front of the argument list, stopping at the terminator or at the first
token that is not a flag; everything after that point is positional. All
flags of this program are string flags, so a flag without an equals sign
consumes the next token as its value. Returns none on a malformed or
undeclared flag. -/
def parseFlags (declared : List String) : List String → Option (List (String × String) × List String)
  | [] => some ([], [])
  | a :: rest =>
    if a = "--" then some ([], rest)
    else if isFlagToken a then
      match splitEq (stripDashes a) with
      | some (n, v) =>
        if containsStr declared n then
          match parseFlags declared rest with
          | some (fs, pos) => some ((n, v) :: fs, pos)
          | none => none
        else none
      | none =>
        if containsStr declared (stripDashes a) then
          match rest with
          | v :: rest2 =>
            match parseFlags declared rest2 with
            | some (fs, pos) => some ((stripDashes a, v) :: fs, pos)
            | none => none
          | [] => none
        else none
    else some ([], a :: rest)

/-- Value of a flag known under the given names: the last assignment wins,
as in the Go flag package; otherwise the declared default. -/
def flagVal (parsed : List (String × String)) (names : List String) (dflt : String) : String :=
  (parsed.foldl (fun acc kv => if containsStr names kv.1 then some kv.2 else acc) none).getD dflt

/-! ### bot: command execution (bot/bot.go exec functions and runCLI) -/

/-- Embeds bot.execSubscribe: resolves the topic URL from the server flag
and the first positional argument, creates the channel set and subscribes
the client when the topic is new, then appends the channel unconditionally
and acknowledges with a reaction. -/
def execSubscribe (server : String) (pos : List String) (channel : String) (st : SysState) :
    SysState × Bool :=
  match pos with
  | [] => (st, false)
  | topic :: _ =>
    let topicURL := server ++ "/" ++ topic
    let st1 :=
      match alookup st.botSubs topicURL with
      | some _ => st
      | none =>
        let cs := clientSubscribe st.clientSubs topicURL
        { botSubs := aset st.botSubs topicURL [],
          clientSubs := cs.1,
          started := st.started + (if cs.2 then 1 else 0) }
    let st2 := { st1 with
      botSubs := aset st1.botSubs topicURL ((alookup st1.botSubs topicURL).getD [] ++ [channel]) }
    (st2, true)

/-- Embeds bot.execUnsubscribe: when the topic has an entry, removes the
first occurrence of the channel; when the set becomes empty, cancels the
client subscription and deletes the topic entry. Always acknowledges with
a reaction when a topic argument is present. The Bool result is true
exactly when the command succeeded (a reaction was sent). -/
def execUnsubscribe (server : String) (pos : List String) (channel : String) (st : SysState) :
    SysState × Bool :=
  match pos with
  | [] => (st, false)
  | topic :: _ =>
    let topicURL := server ++ "/" ++ topic
    match alookup st.botSubs topicURL with
    | none => (st, true)
    | some chans =>
      let chans2 := RemoveString chans channel
      let st1 := { st with botSubs := aset st.botSubs topicURL chans2 }
      let st2 :=
        if chans2.isEmpty then
          { st1 with clientSubs := clientUnsubscribe st1.clientSubs topicURL,
                     botSubs := aerase st1.botSubs topicURL }
        else st1
      (st2, true)

/-- The resolved arguments of a publish invocation (what bot.execPublish
passes to client.Publish). -/
structure PublishInvocation where
  topicURL : String
  message : String
  title : String
  priority : String
  tags : String
  deriving DecidableEq

/-- Embeds bot.execPublish up to the client call: requires a topic and a
nonempty message tail, resolves the topic URL from the server flag, joins
the remaining positionals with single spaces as the body, and forwards the
title, priority and tags flags. -/
def execPublish (server title priority tags : String) (pos : List String) :
    Except String PublishInvocation :=
  match pos with
  | topic :: m1 :: mrest =>
    Except.ok { topicURL := server ++ "/" ++ topic,
                message := String.intercalate " " (m1 :: mrest),
                title := title, priority := priority, tags := tags }
  | _ => Except.error "topic and/or message missing"

/-- Outcome of one dispatched chat command. -/
inductive CmdOutcome where
  | published (inv : PublishInvocation)
  | reacted
  | errorText (msg : String)
  | notFound (cmd : String)
  | usage (msg : String)
  deriving DecidableEq

/-- Declared flag names (with aliases) of the publish command. -/
def publishFlagNames : List String := ["server", "s", "title", "t", "priority", "p", "tags", "ta"]

/-- Declared flag names (with aliases) of subscribe and unsubscribe. -/
def subscribeFlagNames : List String := ["server", "s"]

/-- Embeds bot.runCLI: argv[0] is the program name (the mention token);
the next token selects a command by name or alias; the command parses its
flags with the server flag defaulting to the configured base URL and runs
its exec function; an unknown command token reports command not found. -/
def runCLI (baseURL : String) (st : SysState) (channel : String) (args : List String) :
    SysState × CmdOutcome :=
  match args with
  | [] => (st, CmdOutcome.usage "help")
  | _prog :: rest =>
    match rest with
    | [] => (st, CmdOutcome.usage "help")
    | cmd :: cmdArgs =>
      if cmd = "publish" ∨ cmd = "send" then
        match parseFlags publishFlagNames cmdArgs with
        | none => (st, CmdOutcome.usage "incorrect usage")
        | some (fs, pos) =>
          match execPublish (flagVal fs ["server", "s"] baseURL) (flagVal fs ["title", "t"] "")
              (flagVal fs ["priority", "p"] "") (flagVal fs ["tags", "ta"] "") pos with
          | Except.error e => (st, CmdOutcome.errorText e)
          | Except.ok inv => (st, CmdOutcome.published inv)
      else if cmd = "subscribe" ∨ cmd = "sub" ∨ cmd = "add" then
        match parseFlags subscribeFlagNames cmdArgs with
        | none => (st, CmdOutcome.usage "incorrect usage")
        | some (fs, pos) =>
          let r := execSubscribe (flagVal fs ["server", "s"] baseURL) pos channel st
          (r.1, if r.2 then CmdOutcome.reacted
                else CmdOutcome.errorText "missing server address, see --help for usage details")
      else if cmd = "unsubscribe" ∨ cmd = "del" ∨ cmd = "rm" then
        match parseFlags subscribeFlagNames cmdArgs with
        | none => (st, CmdOutcome.usage "incorrect usage")
        | some (fs, pos) =>
          let r := execUnsubscribe (flagVal fs ["server", "s"] baseURL) pos channel st
          (r.1, if r.2 then CmdOutcome.reacted
                else CmdOutcome.errorText "missing server address, see --help for usage details")
      else (st, CmdOutcome.notFound cmd)

/-! ### bot: fan-out of notification messages (bot.handleSubscriptionMessage) -/

/-- Embeds bot.handleSubscriptionMessage of the latest revision: drops any
record whose event is not a message; otherwise rebuilds the topic URL with
the hardcoded https base of ntfy.sh, formats the display text, and sends
it to every channel in the topic entry. Returns the (channel, text) sends
performed. -/
def handleSubscriptionMessage (subs : List (String × List String)) (m : Message) :
    List (String × String) :=
  if m.Event ≠ "message" then []
  else
    let topicURL := "https://ntfy.sh/" ++ m.Topic
    let text := "**" ++ ShortURL topicURL ++ "** " ++ m.Message
    match alookup subs topicURL with
    | some chans => chans.map (fun ch => (ch, text))
    | none => []

/-! ### Auxiliary definitions used by the theorems -/

/-- Precondition under which execUnsubscribe is a registry no-op: either
the topic has no entry, or its (nonempty, as in every reachable state)
channel list does not contain the channel. -/
def unsubNoOp (st : SysState) (key channel : String) : Bool :=
  match alookup st.botSubs key with
  | none => true
  | some [] => false
  | some (c :: rest) => !containsStr (c :: rest) channel

/-- Two connector-loop iterations, neither interrupted by cancellation:
one failed request, one stream ending in a malformed line. -/
def demoRounds : List LoopRound :=
  [LoopRound.mk ConnEvent.connectFail false,
   LoopRound.mk (ConnEvent.stream [StreamLine.bad]) false]

/-- State after subscribing channel chan1 to mytopic on the default server
from a fresh bridge. -/
def teardownState1 : SysState :=
  (execSubscribe "https://ntfy.sh" ["mytopic"] "chan1" (SysState.mk [] [] 0)).1

/-- ... then unsubscribing the last channel (full teardown). -/
def teardownState2 : SysState :=
  (execUnsubscribe "https://ntfy.sh" ["mytopic"] "chan1" teardownState1).1

/-- ... then subscribing the same channel to the same topic again. -/
def teardownState3 : SysState :=
  (execSubscribe "https://ntfy.sh" ["mytopic"] "chan1" teardownState2).1

/-- State holding subscriptions of chanA and chanB to mytopic made through
a non-default --server base URL. -/
def exampleComState : SysState :=
  (execSubscribe "https://example.com" ["mytopic"] "chanB"
    ((execSubscribe "https://example.com" ["mytopic"] "chanA" (SysState.mk [] [] 0)).1)).1

/-- A registry state unrelated to mytopic, for the no-op witness. -/
def stOther : SysState :=
  SysState.mk [("https://ntfy.sh/other", ["chanX"])] [("https://ntfy.sh/other", false)] 1

/-- A registry state in which chan1 is subscribed twice to mytopic. -/
def stDup : SysState :=
  SysState.mk [("https://ntfy.sh/mytopic", ["chan1", "chan1"])] [("https://ntfy.sh/mytopic", false)] 1

/-! ### Helper lemmas about the association-list and list operations -/

/-- Writing a key and reading it back yields the written value. -/
theorem alookup_aset_self {α : Type} (m : List (String × α)) (k : String) (v : α) :
    alookup (aset m k v) k = some v := by
  induction m with
  | nil => simp [aset, alookup]
  | cons kv rest ih =>
    obtain ⟨k1, v1⟩ := kv
    by_cases h : k1 = k
    · subst h; simp [aset, alookup]
    · simp [aset, alookup, h, ih]

/-- Two writes to the same key collapse to the last one. -/
theorem aset_aset {α : Type} (m : List (String × α)) (k : String) (v w : α) :
    aset (aset m k v) k w = aset m k w := by
  induction m with
  | nil => simp [aset]
  | cons kv rest ih =>
    obtain ⟨k1, v1⟩ := kv
    by_cases h : k1 = k
    · subst h; simp [aset]
    · simp [aset, h, ih]

/-- Writing back the value a key already holds leaves the map unchanged. -/
theorem aset_eq_of_alookup {α : Type} (m : List (String × α)) (k : String) (v : α)
    (h : alookup m k = some v) : aset m k v = m := by
  induction m with
  | nil => simp [alookup] at h
  | cons kv rest ih =>
    obtain ⟨k1, v1⟩ := kv
    by_cases hk : k1 = k
    · subst hk
      simp [alookup] at h
      simp [aset, h]
    · simp only [alookup, if_neg hk] at h
      simp [aset, hk, ih h]

/-- RemoveString of an absent element is the identity. -/
theorem removeString_of_not_mem (l : List String) (r : String) (h : r ∉ l) :
    RemoveString l r = l := by
  induction l with
  | nil => rfl
  | cons v rest ih =>
    simp only [List.mem_cons, not_or] at h
    have hv : ¬ v = r := fun hv => h.1 hv.symm
    simp [RemoveString, hv, ih h.2]

/-- RemoveString removes exactly the first occurrence. -/
theorem removeString_append (xs ys : List String) (r : String) (h : r ∉ xs) :
    RemoveString (xs ++ r :: ys) r = xs ++ ys := by
  induction xs with
  | nil => simp [RemoveString]
  | cons x xs ih =>
    simp only [List.mem_cons, not_or] at h
    have hx : ¬ x = r := fun hv => h.1 hv.symm
    simp [RemoveString, hx, ih h.2]

/-- Boolean non-membership transfers to RemoveString being the identity. -/
theorem removeString_of_containsStr_false (l : List String) (r : String)
    (h : containsStr l r = false) : RemoveString l r = l := by
  induction l with
  | nil => rfl
  | cons v rest ih =>
    by_cases hv : v = r
    · simp [containsStr, hv] at h
    · simp only [containsStr, if_neg hv] at h
      simp [RemoveString, hv, ih h]

/-- A positive occurrence count implies membership. -/
theorem mem_of_countOcc_pos (l : List String) (r : String) (h : 1 ≤ countOcc l r) : r ∈ l := by
  induction l with
  | nil => simp [countOcc] at h
  | cons v rest ih =>
    by_cases hv : v = r
    · subst hv; exact List.mem_cons_self v rest
    · simp only [countOcc, if_neg hv, Nat.zero_add] at h
      exact List.mem_cons_of_mem _ (ih h)

/-- When an element occurs at least twice, it still occurs after removing
its first occurrence. -/
theorem mem_removeString_of_two_le (l : List String) (r : String) (h : 2 ≤ countOcc l r) :
    r ∈ RemoveString l r := by
  induction l with
  | nil => simp [countOcc] at h
  | cons v rest ih =>
    by_cases hv : v = r
    · subst hv
      have hstep : RemoveString (v :: rest) v = rest := by simp [RemoveString]
      rw [hstep]
      apply mem_of_countOcc_pos
      simp [countOcc] at h
      omega
    · simp only [countOcc, if_neg hv, Nat.zero_add] at h
      simp only [RemoveString, if_neg hv]
      exact List.mem_cons_of_mem _ (ih h)

/-! ### The claims -/

/-- C1 counterexample: subscribing chan1 twice to mytopic from a fresh
bridge leaves two entries for chan1 in the topic channel list, refuting
the claimed single entry. -/
theorem subscribe_twice_not_idempotent_cex :
    countOcc (channelsFor ((execSubscribe "https://ntfy.sh" ["mytopic"] "chan1"
        ((execSubscribe "https://ntfy.sh" ["mytopic"] "chan1" (SysState.mk [] [] 0)).1)).1)
      "https://ntfy.sh/mytopic") "chan1" = 2
    ∧ ¬ countOcc (channelsFor ((execSubscribe "https://ntfy.sh" ["mytopic"] "chan1"
        ((execSubscribe "https://ntfy.sh" ["mytopic"] "chan1" (SysState.mk [] [] 0)).1)).1)
      "https://ntfy.sh/mytopic") "chan1" = 1 := by decide

/-- C1 (amended): subscribing the same channel twice to the same fresh
topic appends a duplicate entry — afterwards the topic channel list holds
exactly two entries for the channel — while still exactly one live
connector exists for the topic, started by the first subscribe. -/
theorem subscribe_twice_duplicate_entry_one_connector
    (server topic channel : String) (st : SysState)
    (h1 : alookup st.botSubs (server ++ "/" ++ topic) = none)
    (h2 : alookup st.clientSubs (server ++ "/" ++ topic) = none) :
    countOcc (channelsFor ((execSubscribe server [topic] channel
        ((execSubscribe server [topic] channel st).1)).1) (server ++ "/" ++ topic)) channel = 2
    ∧ connectorLive ((execSubscribe server [topic] channel
        ((execSubscribe server [topic] channel st).1)).1) (server ++ "/" ++ topic) = true
    ∧ ((execSubscribe server [topic] channel
        ((execSubscribe server [topic] channel st).1)).1).started = st.started + 1 := by
  simp [execSubscribe, clientSubscribe, h1, h2, alookup_aset_self, aset_aset,
    channelsFor, connectorLive, countOcc]

/-- C1 witness: the amended statement at a fresh bridge, default server,
topic mytopic and channel chan1. -/
theorem subscribe_twice_duplicate_entry_one_connector_witness :
    countOcc (channelsFor ((execSubscribe "https://ntfy.sh" ["mytopic"] "chan1"
        ((execSubscribe "https://ntfy.sh" ["mytopic"] "chan1" (SysState.mk [] [] 0)).1)).1)
      ("https://ntfy.sh" ++ "/" ++ "mytopic")) "chan1" = 2
    ∧ connectorLive ((execSubscribe "https://ntfy.sh" ["mytopic"] "chan1"
        ((execSubscribe "https://ntfy.sh" ["mytopic"] "chan1" (SysState.mk [] [] 0)).1)).1)
      ("https://ntfy.sh" ++ "/" ++ "mytopic") = true
    ∧ ((execSubscribe "https://ntfy.sh" ["mytopic"] "chan1"
        ((execSubscribe "https://ntfy.sh" ["mytopic"] "chan1" (SysState.mk [] [] 0)).1)).1).started
      = (SysState.mk [] [] 0).started + 1 :=
  subscribe_twice_duplicate_entry_one_connector "https://ntfy.sh" "mytopic" "chan1"
    (SysState.mk [] [] 0) rfl rfl

/-- C2: after a full lifecycle (subscribe, last unsubscribe, teardown), a
fresh subscribe to the same topic records the subscriber but starts no new
connector: Client.Unsubscribe cancelled the context yet left the stale
entry in the client map, so Client.Subscribe returns early. The first
cycle did have a live connector; after the third command none is live and
the total number of connector starts is still one. -/
theorem resubscribe_after_teardown_starts_no_connector :
    connectorLive teardownState1 "https://ntfy.sh/mytopic" = true
    ∧ channelsFor teardownState3 "https://ntfy.sh/mytopic" = ["chan1"]
    ∧ connectorLive teardownState3 "https://ntfy.sh/mytopic" = false
    ∧ teardownState3.started = 1 := by decide

/-- C3 counterexample: chanA and chanB subscribed to mytopic through the
base URL https://example.com receive nothing when a message for mytopic
arrives, because the router rebuilds the key with the hardcoded ntfy.sh
base; the claimed one-send-each fails. -/
theorem fanout_nondefault_server_no_sends_cex :
    channelsFor exampleComState "https://example.com/mytopic" = ["chanA", "chanB"]
    ∧ handleSubscriptionMessage exampleComState.botSubs
        (Message.mk "message" "mytopic" "hi" "" 0 []) = []
    ∧ ¬ (countOcc ((handleSubscriptionMessage exampleComState.botSubs
          (Message.mk "message" "mytopic" "hi" "" 0 [])).map Prod.fst) "chanA" = 1
        ∧ countOcc ((handleSubscriptionMessage exampleComState.botSubs
          (Message.mk "message" "mytopic" "hi" "" 0 [])).map Prod.fst) "chanB" = 1) := by decide

/-- C3 (amended): for a topic whose key was formed from the default base
URL https://ntfy.sh and is subscribed by exactly the distinct channels A
and B, one incoming message event yields exactly one send to A and one to
B, both carrying the same formatted text. -/
theorem fanout_default_server_two_sends
    (subs : List (String × List String)) (A B topic body : String)
    (hAB : A ≠ B)
    (hsubs : alookup subs ("https://ntfy.sh/" ++ topic) = some [A, B]) :
    handleSubscriptionMessage subs (Message.mk "message" topic body "" 0 []) =
      [(A, "**" ++ ShortURL ("https://ntfy.sh/" ++ topic) ++ "** " ++ body),
       (B, "**" ++ ShortURL ("https://ntfy.sh/" ++ topic) ++ "** " ++ body)]
    ∧ countOcc ((handleSubscriptionMessage subs
        (Message.mk "message" topic body "" 0 [])).map Prod.fst) A = 1
    ∧ countOcc ((handleSubscriptionMessage subs
        (Message.mk "message" topic body "" 0 [])).map Prod.fst) B = 1 := by
  have hBA : ¬ B = A := fun he => hAB he.symm
  simp [handleSubscriptionMessage, hsubs, countOcc, hAB, hBA]

/-- C3 witness: the amended fan-out at concrete distinct channels. -/
theorem fanout_default_server_two_sends_witness :
    handleSubscriptionMessage [("https://ntfy.sh/mytopic", ["chanA", "chanB"])]
        (Message.mk "message" "mytopic" "hi" "" 0 []) =
      [("chanA", "**" ++ ShortURL ("https://ntfy.sh/" ++ "mytopic") ++ "** " ++ "hi"),
       ("chanB", "**" ++ ShortURL ("https://ntfy.sh/" ++ "mytopic") ++ "** " ++ "hi")]
    ∧ countOcc ((handleSubscriptionMessage [("https://ntfy.sh/mytopic", ["chanA", "chanB"])]
        (Message.mk "message" "mytopic" "hi" "" 0 [])).map Prod.fst) "chanA" = 1
    ∧ countOcc ((handleSubscriptionMessage [("https://ntfy.sh/mytopic", ["chanA", "chanB"])]
        (Message.mk "message" "mytopic" "hi" "" 0 [])).map Prod.fst) "chanB" = 1 :=
  fanout_default_server_two_sends [("https://ntfy.sh/mytopic", ["chanA", "chanB"])]
    "chanA" "chanB" "mytopic" "hi" (by decide) (by decide)

/-- C4: the dispatcher of the latest revision tokenizes with
strings.Fields (the source carries a FIXME about quote handling), so the
quoted argument of this chat line reaches the handlers split into two
tokens that retain the quote characters, not as one token. -/
theorem tokenizer_splits_quoted_argument :
    handleChatMessageEvent "<@!99>" "<@!99> publish mytopic \"hello world\""
      = some ["<@!99>", "publish", "mytopic", "\"hello", "world\""]
    ∧ "hello world" ∉ ["<@!99>", "publish", "mytopic", "\"hello", "world\""] := by decide

/-- C5: the connector loop retries after every connection outcome —
request failure, decode failure or clean stream end — separating
consecutive attempts by exactly the fixed 5-second wait, terminates
exactly when cancellation fires during one of the waits, and a single
malformed line makes the connection attempt itself return a decode
error. -/
theorem connector_retry_loop_spec (rounds : List LoopRound) :
    (LoopStep.exited ∈ handleConnectionLoop rounds ↔ ∃ r ∈ rounds, r.cancelled = true)
    ∧ ((∀ r ∈ rounds, r.cancelled = false) →
        handleConnectionLoop rounds =
          (rounds.map (fun r =>
            [LoopStep.attempt (handleConnection r.ev).1 (handleConnection r.ev).2,
             LoopStep.wait 5])).flatten)
    ∧ (∀ (ms : List Message) (rest : List StreamLine),
        (handleConnection (ConnEvent.stream (ms.map StreamLine.ok ++ StreamLine.bad :: rest))).2
          = some "json decode error") := by
  refine ⟨?_, ?_, ?_⟩
  · induction rounds with
    | nil => simp [handleConnectionLoop]
    | cons r rest ih =>
      cases hc : r.cancelled with
      | true => simp [handleConnectionLoop, hc]
      | false => simp [handleConnectionLoop, hc, ih]
  · induction rounds with
    | nil => intro _; rfl
    | cons r rest ih =>
      intro hall
      have hr : r.cancelled = false := hall r (List.mem_cons_self r rest)
      have hrest := ih (fun x hx => hall x (List.mem_cons_of_mem _ hx))
      simp [handleConnectionLoop, hr, hrest]
  · intro ms rest
    induction ms with
    | nil => rfl
    | cons m more ih =>
      simp only [handleConnection, List.map_cons, List.cons_append, scanLines] at ih ⊢
      exact ih

/-- C5 witness: the loop specification at two uncancelled iterations (a
failed request, then a stream with one malformed line). -/
theorem connector_retry_loop_spec_witness :
    (LoopStep.exited ∈ handleConnectionLoop demoRounds ↔ ∃ r ∈ demoRounds, r.cancelled = true)
    ∧ handleConnectionLoop demoRounds =
        (demoRounds.map (fun r =>
          [LoopStep.attempt (handleConnection r.ev).1 (handleConnection r.ev).2,
           LoopStep.wait 5])).flatten
    ∧ (handleConnection (ConnEvent.stream (([] : List Message).map StreamLine.ok
          ++ StreamLine.bad :: []))).2 = some "json decode error" :=
  ⟨(connector_retry_loop_spec demoRounds).1,
   (connector_retry_loop_spec demoRounds).2.1 (by decide),
   (connector_retry_loop_spec demoRounds).2.2 [] []⟩

/-- C6 counterexample: the connector pushes a decoded record whose event
kind is not message to the shared channel, refuting the claim that such
records are discarded by the connector. -/
theorem connector_pushes_non_message_event_cex :
    (handleConnection (ConnEvent.stream [StreamLine.ok (Message.mk "open" "mytopic" "" "" 0 [])])).1
      = [Message.mk "open" "mytopic" "" "" 0 []]
    ∧ (Message.mk "open" "mytopic" "" "" 0 []).Event ≠ "message" := by decide

/-- C6 (amended): the connector pushes every successfully decoded record
to the shared channel regardless of event kind; the filter sits in the
router, which performs no send for a record whose event kind is not
message — so such a record is never delivered to any chat channel. -/
theorem connector_pushes_all_router_filters :
    (∀ ms : List Message, (handleConnection (ConnEvent.stream (ms.map StreamLine.ok))).1 = ms)
    ∧ (∀ (subs : List (String × List String)) (m : Message),
        m.Event ≠ "message" → handleSubscriptionMessage subs m = []) := by
  constructor
  · intro ms
    induction ms with
    | nil => rfl
    | cons m rest ih =>
      simp only [handleConnection, List.map_cons, scanLines] at ih ⊢
      simp [ih]
  · intro subs m h
    simp [handleSubscriptionMessage, h]

/-- C6 witness: a keepalive record is pushed by the connector and dropped
by the router. -/
theorem connector_pushes_all_router_filters_witness :
    (handleConnection (ConnEvent.stream
        ([Message.mk "keepalive" "mytopic" "" "" 0 []].map StreamLine.ok))).1
      = [Message.mk "keepalive" "mytopic" "" "" 0 []]
    ∧ handleSubscriptionMessage [("https://ntfy.sh/mytopic", ["chanA"])]
        (Message.mk "keepalive" "mytopic" "x" "" 0 []) = [] :=
  ⟨connector_pushes_all_router_filters.1 [Message.mk "keepalive" "mytopic" "" "" 0 []],
   connector_pushes_all_router_filters.2 [("https://ntfy.sh/mytopic", ["chanA"])]
     (Message.mk "keepalive" "mytopic" "x" "" 0 []) (by decide)⟩

/-- C7 counterexample: the chat line publish mytopic hello world
--title=Hi resolves with the flag token left inside the message body and
an empty title, because flag parsing stops at the first positional
argument; the claimed body and title do not obtain. -/
theorem publish_trailing_flag_cex :
    (runCLI "https://ntfy.sh" (SysState.mk [] [] 0) "chan1"
        ["<@!99>", "publish", "mytopic", "hello", "world", "--title=Hi"]).2
      = CmdOutcome.published
          (PublishInvocation.mk "https://ntfy.sh/mytopic" "hello world --title=Hi" "" "" "")
    ∧ ¬ (runCLI "https://ntfy.sh" (SysState.mk [] [] 0) "chan1"
        ["<@!99>", "publish", "mytopic", "hello", "world", "--title=Hi"]).2
      = CmdOutcome.published
          (PublishInvocation.mk "https://ntfy.sh/mytopic" "hello world" "Hi" "" "") := by decide

/-- C7 (amended): for every base URL, the input publish mytopic hello
world --title=Hi resolves to topic baseURL/mytopic with body hello world
--title=Hi and empty title (flags after the first positional are not
parsed); placing the flag before the positionals yields the intended body
hello world and title Hi. -/
theorem publish_parse_flag_position (baseURL : String) (st : SysState) (channel : String) :
    (runCLI baseURL st channel
        ["<@!99>", "publish", "mytopic", "hello", "world", "--title=Hi"]).2
      = CmdOutcome.published
          (PublishInvocation.mk (baseURL ++ "/" ++ "mytopic") "hello world --title=Hi" "" "" "")
    ∧ (runCLI baseURL st channel
        ["<@!99>", "publish", "--title=Hi", "mytopic", "hello", "world"]).2
      = CmdOutcome.published
          (PublishInvocation.mk (baseURL ++ "/" ++ "mytopic") "hello world" "Hi" "" "") :=
  ⟨rfl, rfl⟩

/-- C7 witness: the amended parse statement at the default base URL. -/
theorem publish_parse_flag_position_witness :
    (runCLI "https://ntfy.sh" (SysState.mk [] [] 0) "chanW"
        ["<@!99>", "publish", "mytopic", "hello", "world", "--title=Hi"]).2
      = CmdOutcome.published
          (PublishInvocation.mk ("https://ntfy.sh" ++ "/" ++ "mytopic")
            "hello world --title=Hi" "" "" "")
    ∧ (runCLI "https://ntfy.sh" (SysState.mk [] [] 0) "chanW"
        ["<@!99>", "publish", "--title=Hi", "mytopic", "hello", "world"]).2
      = CmdOutcome.published
          (PublishInvocation.mk ("https://ntfy.sh" ++ "/" ++ "mytopic")
            "hello world" "Hi" "" "") :=
  publish_parse_flag_position "https://ntfy.sh" (SysState.mk [] [] 0) "chanW"

/-- C8: unsubscribing a channel that is not in the topic channel set, or a
topic without an entry, leaves the whole registry state unchanged and
still acknowledges success. -/
theorem unsubscribe_noop_success (server topic channel : String) (st : SysState)
    (h : unsubNoOp st (server ++ "/" ++ topic) channel = true) :
    execUnsubscribe server [topic] channel st = (st, true) := by
  cases hl : alookup st.botSubs (server ++ "/" ++ topic) with
  | none => simp [execUnsubscribe, hl]
  | some chans =>
    cases chans with
    | nil => simp [unsubNoOp, hl] at h
    | cons c rest =>
      simp only [unsubNoOp, hl] at h
      simp only [Bool.not_eq_eq_eq_not, Bool.not_true] at h
      have hrm : RemoveString (c :: rest) channel = c :: rest :=
        removeString_of_containsStr_false _ _ h
      simp [execUnsubscribe, hl, hrm, aset_eq_of_alookup _ _ _ hl]

/-- C8 witness: unsubscribing a never-subscribed topic from a state that
holds an unrelated subscription changes nothing and succeeds. -/
theorem unsubscribe_noop_success_witness :
    execUnsubscribe "https://ntfy.sh" ["mytopic"] "chanZ" stOther = (stOther, true) :=
  unsubscribe_noop_success "https://ntfy.sh" "mytopic" "chanZ" stOther (by decide)

/-- C9: a publish call that receives an HTTP response fails with an error
message carrying the status code whenever the code is 300 or greater, and
succeeds whenever the code is below 300. -/
theorem publish_status_code_boundary
    (topicURL message title priority tags : String) (resp : PublishResponse) :
    (300 ≤ resp.statusCode →
      Publish topicURL message [WithTitle title, WithPriority priority, WithTags tags] resp
        = Except.error ("unexpected response " ++ toString resp.statusCode ++ " from server"))
    ∧ (resp.statusCode < 300 →
      Publish topicURL message [WithTitle title, WithPriority priority, WithTags tags] resp
        = Except.ok ()) := by
  constructor
  · intro h
    have h2 : resp.statusCode > 299 := h
    simp [Publish, applyOptions, WithTitle, WithPriority, WithTags, if_pos h2]
  · intro h
    have h2 : ¬ resp.statusCode > 299 := by omega
    simp [Publish, applyOptions, WithTitle, WithPriority, WithTags, if_neg h2]

/-- C9 witness: a 404 response fails with the code in the message, a 200
response succeeds. -/
theorem publish_status_code_boundary_witness :
    Publish "https://ntfy.sh/mytopic" "hi" [WithTitle "", WithPriority "", WithTags ""]
        (PublishResponse.mk 404)
      = Except.error ("unexpected response " ++ toString (PublishResponse.mk 404).statusCode
          ++ " from server")
    ∧ Publish "https://ntfy.sh/mytopic" "hi" [WithTitle "", WithPriority "", WithTags ""]
        (PublishResponse.mk 200)
      = Except.ok () :=
  ⟨(publish_status_code_boundary "https://ntfy.sh/mytopic" "hi" "" "" ""
      (PublishResponse.mk 404)).1 (by decide),
   (publish_status_code_boundary "https://ntfy.sh/mytopic" "hi" "" "" ""
      (PublishResponse.mk 200)).2 (by decide)⟩

/-- C10: RemoveString returns the list unchanged when the element is
absent and removes exactly the first occurrence otherwise; consequently a
channel subscribed at least twice to a topic is still subscribed after one
unsubscribe command. -/
theorem removeString_first_occurrence_semantics :
    (∀ (s : List String) (r : String), r ∉ s → RemoveString s r = s)
    ∧ (∀ (xs ys : List String) (r : String), r ∉ xs →
        RemoveString (xs ++ r :: ys) r = xs ++ ys)
    ∧ (∀ (st : SysState) (server topic channel : String),
        2 ≤ countOcc (channelsFor st (server ++ "/" ++ topic)) channel →
        channel ∈ channelsFor ((execUnsubscribe server [topic] channel st).1)
          (server ++ "/" ++ topic)) := by
  refine ⟨removeString_of_not_mem, removeString_append, ?_⟩
  intro st server topic channel hcnt
  unfold channelsFor at hcnt
  cases hl : alookup st.botSubs (server ++ "/" ++ topic) with
  | none => rw [hl] at hcnt; simp [countOcc] at hcnt
  | some chans =>
    rw [hl] at hcnt
    simp only [Option.getD_some] at hcnt
    have hmem : channel ∈ RemoveString chans channel :=
      mem_removeString_of_two_le _ _ hcnt
    have hie : (RemoveString chans channel).isEmpty = false := by
      cases hrm : RemoveString chans channel with
      | nil => rw [hrm] at hmem; simp at hmem
      | cons a b => rfl
    simp [execUnsubscribe, hl, hie, channelsFor, alookup_aset_self, hmem]

/-- C10 witness: the three parts at concrete inputs, including the state
in which chan1 appears twice and survives one unsubscribe. -/
theorem removeString_first_occurrence_semantics_witness :
    RemoveString ["a", "b"] "c" = ["a", "b"]
    ∧ RemoveString (["x"] ++ "b" :: ["y", "b"]) "b" = ["x"] ++ ["y", "b"]
    ∧ "chan1" ∈ channelsFor ((execUnsubscribe "https://ntfy.sh" ["mytopic"] "chan1" stDup).1)
        ("https://ntfy.sh" ++ "/" ++ "mytopic") :=
  ⟨removeString_first_occurrence_semantics.1 ["a", "b"] "c" (by decide),
   removeString_first_occurrence_semantics.2.1 ["x"] ["y", "b"] "b" (by decide),
   removeString_first_occurrence_semantics.2.2 stDup "https://ntfy.sh" "mytopic" "chan1"
     (by decide)⟩

end NtfyBot
